import Mathlib

/-!
Shallow embedding of `scripts/build_instance_image.py` (SWE-PolyBench):
the per-instance Docker image build orchestrator (`main`, lines 47-117,
and the `__main__` guard, lines 120-121).

The collaborators `DockerManager` (docker_utils) and `RepoManager`
(repo_utils) are not part of the embedded source; the orchestrator sees
them only through the calls it makes.  They are modelled as an
environment of oracles (`Env`) whose outcomes range over every behaviour
the call sites can observe: a normal return value or a raised Python
exception (`Except PyExc`).  Behavioural contracts of the collaborators
that the specification states (and that are not visible at the call
sites) are modelled from the spec and marked as such in doc comments.

The run is embedded as explicit state passing: `St` records the lines
printed, a trace of collaborator-invocation events, whether the
ephemeral repository workspace currently exists, and which log excerpt
was surfaced on a failed build.
-/

namespace PolyBench

/-- A raised Python exception, observed through its message (`str(e)`). -/
structure PyExc where
  msg : String
deriving DecidableEq, Repr

/-- The six positional command-line arguments (`parse_args`, lines 19-46). -/
structure Args where
  instance_id : String
  language : String
  repo : String
  base_commit : String
  dockerfile : String
  repo_path : String
deriving DecidableEq, Repr

/-- ASCII case folding of one character, as Python `str.lower` acts on
the ASCII range: `A`-`Z` (code points 65-90) map to `a`-`z` (+32),
everything else is unchanged. -/
def pyLowerChar (c : Char) : Char :=
  if 65 ≤ c.toNat ∧ c.toNat ≤ 90 then Char.ofNat (c.toNat + 32) else c

/-- Python `s.lower()` on ASCII strings: case-fold every character. -/
def pyLower (s : String) : String :=
  ⟨s.data.map pyLowerChar⟩

/-- Line 66: `base_image_id = f"polybench_{language.lower()}_base"`. -/
def baseImageId (language : String) : String :=
  "polybench_" ++ pyLower language ++ "_base"

/-- Line 77: `image_id = f"polybench_{language.lower()}_{instance_id.lower()}"`. -/
def instanceImageId (language instance_id : String) : String :=
  "polybench_" ++ pyLower language ++ "_" ++ pyLower instance_id

/-- Python slice `l[-n:]`: the last `n` elements (the whole list when it
has fewer than `n`).  Used at line 108: `docker_manager.build_logs[-10:]`. -/
def pyTail (n : Nat) (l : List α) : List α :=
  l.drop (l.length - n)

/-- Collaborator-invocation events, tagged by call site, recorded in the
order the orchestrator performs them. -/
inductive Event where
  /-- Line 70: `check_image_local` called on the base image name. -/
  | checkBase (name : String)
  /-- Line 72: `build_base_image(language=...)` invoked. -/
  | buildBase (language : String)
  /-- Line 81: `check_image_local` called on the instance image name. -/
  | checkInstance (name : String)
  /-- Line 89: `repo_manager.clone_repo()` invoked. -/
  | clone (repo : String)
  /-- Line 90: `repo_manager.checkout_commit(...)` invoked. -/
  | checkout (commit : String)
  /-- Lines 95-98: `docker_manager.docker_build(...)` invoked. -/
  | buildInstance (name : String)
deriving DecidableEq, Repr

/-- Outcomes of the collaborator calls the orchestrator makes, as an
oracle environment.  Each call either returns a value or raises.

Modelled from the spec where the collaborator code is absent from the
embedded source:
* `buildBaseImage` — a base-build failure surfaces as a raised exception
  ("*BaseBuildError* — fatal to the run before any instance work
  starts"); the call site ignores any return value.
* `checkImageLocal` — "a query error is NOT swallowed as does not
  exist — it must propagate": a failed registry query raises rather
  than returning `false`.
* `buildLogs` — `docker_manager.build_logs` as read at line 106 after a
  failed build. -/
structure Env where
  /-- Line 62: `docker.from_env(timeout=720)`. -/
  fromEnv : Except PyExc Unit
  /-- Lines 70 and 81: `check_image_local(local_image_name=name)`. -/
  checkImageLocal : String → Except PyExc Bool
  /-- Line 72: `build_base_image(language=language)`. -/
  buildBaseImage : String → Except PyExc Unit
  /-- Line 89: `clone_repo()`. -/
  cloneRepo : Except PyExc Unit
  /-- Line 90: `checkout_commit(commit_hash=base_commit)`. -/
  checkoutCommit : String → Except PyExc Unit
  /-- Lines 95-98: `docker_build(...)`, returning the build result code. -/
  dockerBuild : Except PyExc Int
  /-- Line 106: `docker_manager.build_logs`. -/
  buildLogs : List String

/-- Observable run state: printed lines, the event trace, whether the
ephemeral repository workspace exists on disk, whether the local
`repo_manager` object is live (so that its finalizer runs at frame
exit), and the log excerpt surfaced on a failed build. -/
structure St where
  printed : List String := []
  trace : List Event := []
  workspaceExists : Bool := false
  repoManagerLive : Bool := false
  excerptShown : List String := []
deriving DecidableEq, Repr

def addPrint (s : St) (line : String) : St :=
  { s with printed := s.printed ++ [line] }

def addEvent (s : St) (e : Event) : St :=
  { s with trace := s.trace ++ [e] }

/-- Modelled from the spec: `RepoManager.__del__` (repo_utils is not in
the embedded source) removes the temporary clone directory; "`release`
must be idempotent and safe to call even if clone partially failed". -/
def repoDel (s : St) : St :=
  { s with workspaceExists := false }

/-- Lines 64-74: the base-image phase.  For a non-`"Python"` language,
derive the base image name, query the registry for it, and build it when
absent; `"Python"` skips the phase entirely. -/
def basePhase (env : Env) (language : String) (s : St) : Except PyExc Unit × St :=
  if language ≠ "Python" then
    let base_image_id := baseImageId language
    let s := addEvent s (.checkBase base_image_id)
    match env.checkImageLocal base_image_id with
    | .error e => (.error e, s)
    | .ok found =>
      if !found then
        let s := addPrint s ("Building base image for " ++ language ++ "...")
        let s := addEvent s (.buildBase language)
        match env.buildBaseImage language with
        | .error e => (.error e, s)
        | .ok _ => (.ok (), s)
      else
        (.ok (), addPrint s ("Base image for " ++ language ++ " already exists"))
  else
    (.ok (), s)

/-- Lines 77-113: the instance-image phase.  Derive the instance image
name; short-circuit with status 0 when it already exists; otherwise
clone the repository (creating the workspace), pin the commit, run the
build, tear the workspace down (`repo_manager.__del__()`, line 101) and
map the build result to 0/1, surfacing the last 10 log lines on
failure. -/
def instancePhase (env : Env) (a : Args) (s : St) : Except PyExc Int × St :=
  let image_id := instanceImageId a.language a.instance_id
  let s := addEvent s (.checkInstance image_id)
  match env.checkImageLocal image_id with
  | .error e => (.error e, s)
  | .ok found =>
    if found then
      (.ok 0, addPrint s ("Image " ++ image_id ++ " already exists locally"))
    else
      let s := addPrint s ("Cloning repository " ++ a.repo ++
        " and checking out " ++ a.base_commit.take 8 ++ "...")
      let s := { s with repoManagerLive := true }
      let s := addEvent s (.clone a.repo)
      let s := { s with workspaceExists := true }
      match env.cloneRepo with
      | .error e => (.error e, s)
      | .ok _ =>
        let s := addEvent s (.checkout a.base_commit)
        match env.checkoutCommit a.base_commit with
        | .error e => (.error e, s)
        | .ok _ =>
          let s := addPrint s ("Building Docker image " ++ image_id ++ "...")
          let s := addEvent s (.buildInstance image_id)
          match env.dockerBuild with
          | .error e => (.error e, s)
          | .ok build_success =>
            let s := repoDel s
            if build_success ≠ 0 then
              let s := addPrint s ("Failed to build image for " ++ a.instance_id)
              let s :=
                if env.buildLogs ≠ [] then
                  let excerpt := pyTail 10 env.buildLogs
                  let s := addPrint s "Build logs:"
                  { s with printed := s.printed ++ excerpt.map (fun log => "  " ++ log),
                           excerptShown := excerpt }
                else s
              (.ok 1, s)
            else
              (.ok 0, addPrint s ("Successfully built image " ++ image_id))

/-- Lines 60-113: the body of `main`'s `try` block.  Construct the
engine client, run the base phase, then the instance phase; a raised
exception aborts the remainder. -/
def tryBody (env : Env) (a : Args) (s : St) : Except PyExc Int × St :=
  match env.fromEnv with
  | .error e => (.error e, s)
  | .ok _ =>
    match basePhase env a.language s with
    | (.error e, s) => (.error e, s)
    | (.ok _, s) => instancePhase env a s

/-- CPython frame teardown when `main` returns: the local `repo_manager`
(when one was created) loses its last reference and is finalized, which
invokes `RepoManager.__del__` — the spec-modelled idempotent workspace
removal `repoDel`.  This runs on normal returns and on returns from the
`except` handler alike (`except Exception as e` drops its reference to
the traceback when the handler exits). -/
def finalizeFrame (s : St) : St :=
  if s.repoManagerLive then repoDel s else s

/-- Lines 47-117: `main()`.  Runs the `try` body; an exception raised by
any collaborator is caught by the top-level handler (lines 115-117),
which prints `Error building image for <id>: <msg>` and yields 1.
Returns `main`'s return value together with the observable state after
frame teardown. -/
def pyMain (env : Env) (a : Args) : Int × St :=
  match tryBody env a {} with
  | (.ok v, s) => (v, finalizeFrame s)
  | (.error e, s) =>
    (1, finalizeFrame
      (addPrint s ("Error building image for " ++ a.instance_id ++ ": " ++ e.msg)))

/-- Lines 120-121: the `__main__` guard runs `main()` but discards its
return value — there is no `sys.exit` call (`sys` is imported at line 7
and never used) — so the interpreter falls off the end of the script and
the process exit status is 0 whenever `main` itself does not raise
(it cannot: every exception is caught at lines 115-117). -/
def processExitStatus (env : Env) (a : Args) : Int :=
  let _run := pyMain env a
  0

/-! ### Case folding and image-name lemmas -/

theorem pyLowerChar_ofNat_upper (n : Nat) (h1 : 65 ≤ n) (h2 : n ≤ 90) :
    pyLowerChar (Char.ofNat (n + 32)) = Char.ofNat (n + 32) := by
  interval_cases n <;> decide

theorem pyLowerChar_idem (c : Char) : pyLowerChar (pyLowerChar c) = pyLowerChar c := by
  by_cases h : 65 ≤ c.toNat ∧ c.toNat ≤ 90
  · rw [show pyLowerChar c = Char.ofNat (c.toNat + 32) from if_pos h]
    exact pyLowerChar_ofNat_upper c.toNat h.1 h.2
  · rw [show pyLowerChar c = c from if_neg h]
    exact if_neg h

theorem pyLower_idem (s : String) : pyLower (pyLower s) = pyLower s := by
  unfold pyLower
  simp only [List.map_map]
  have : pyLowerChar ∘ pyLowerChar = pyLowerChar := by
    funext c
    exact pyLowerChar_idem c
  rw [this]

theorem pyLower_append (s t : String) : pyLower (s ++ t) = pyLower s ++ pyLower t := by
  apply String.ext
  simp [pyLower, String.data_append]

theorem pyLower_instanceImageId (l i : String) :
    pyLower (instanceImageId l i) = instanceImageId l i := by
  have h1 : pyLower "polybench_" = "polybench_" := by decide
  have h2 : pyLower "_" = "_" := by decide
  rw [instanceImageId, pyLower_append, pyLower_append, pyLower_append, h1, h2,
    pyLower_idem, pyLower_idem]

theorem pyLower_baseImageId (l : String) :
    pyLower (baseImageId l) = baseImageId l := by
  have h1 : pyLower "polybench_" = "polybench_" := by decide
  have h2 : pyLower "_base" = "_base" := by decide
  rw [baseImageId, pyLower_append, pyLower_append, h1, h2, pyLower_idem]

/-- C6: image-name derivation is a pure, deterministic function of
`(language, instanceId)`: the instance image name is
`polybench_<language>_<instanceId>` and the base image name is
`polybench_<language>_base`, both fully lower-cased before use, so
inputs differing only in case (equal after case folding) yield the same
canonical names. -/
theorem c6_naming_deterministic_canonical (l i l' i' : String)
    (hl : pyLower l = pyLower l') (hi : pyLower i = pyLower i') :
    instanceImageId l i = "polybench_" ++ pyLower l ++ "_" ++ pyLower i ∧
    baseImageId l = "polybench_" ++ pyLower l ++ "_base" ∧
    pyLower (instanceImageId l i) = instanceImageId l i ∧
    pyLower (baseImageId l) = baseImageId l ∧
    instanceImageId l i = instanceImageId l' i' ∧
    baseImageId l = baseImageId l' := by
  refine ⟨rfl, rfl, pyLower_instanceImageId l i, pyLower_baseImageId l, ?_, ?_⟩
  · rw [instanceImageId, instanceImageId, hl, hi]
  · rw [baseImageId, baseImageId, hl]

/-- Witness for C6 at `("JaVa", "GsON-1")` vs `("java", "gson-1")`. -/
theorem c6_naming_deterministic_canonical_witness :
    pyLower "JaVa" = pyLower "java" ∧ pyLower "GsON-1" = pyLower "gson-1" ∧
    (instanceImageId "JaVa" "GsON-1" =
        "polybench_" ++ pyLower "JaVa" ++ "_" ++ pyLower "GsON-1" ∧
      baseImageId "JaVa" = "polybench_" ++ pyLower "JaVa" ++ "_base" ∧
      pyLower (instanceImageId "JaVa" "GsON-1") = instanceImageId "JaVa" "GsON-1" ∧
      pyLower (baseImageId "JaVa") = baseImageId "JaVa" ∧
      instanceImageId "JaVa" "GsON-1" = instanceImageId "java" "gson-1" ∧
      baseImageId "JaVa" = baseImageId "java") :=
  ⟨by decide, by decide,
    c6_naming_deterministic_canonical "JaVa" "GsON-1" "java" "gson-1"
      (by decide) (by decide)⟩

/-! ### List helpers -/

/-- If a list starts with the block `l` and `e` does not occur in `l`,
then in any decomposition around an occurrence of `e` the whole block
`l` lies inside the part before `e`. -/
theorem mem_pre_of_block (l t pre post : List α) (e : α)
    (happ : l ++ t = pre ++ e :: post) (he : e ∉ l) : ∀ z ∈ l, z ∈ pre := by
  rcases List.append_eq_append_iff.mp happ with ⟨a, ha, _⟩ | ⟨c, hc, hc2⟩
  · intro z hz
    rw [ha]
    exact List.mem_append_left _ hz
  · cases c with
    | nil =>
      intro z hz
      rw [List.append_nil] at hc
      rw [← hc]
      exact hz
    | cons hd tl =>
      exfalso
      apply he
      rw [hc]
      apply List.mem_append_right
      have : hd = e := (List.cons.injEq _ _ _ _ ▸ hc2.symm).1
      rw [this]
      exact List.mem_cons_self _ _

/-- The last `n` of a retained suffix agree with the last `n` of the
full sequence, provided the suffix keeps at least `n` elements. -/
theorem pyTail_suffix (n : Nat) (logs produced : List α)
    (hsuf : logs <:+ produced) (hn : n ≤ logs.length) :
    pyTail n logs = pyTail n produced := by
  obtain ⟨t, rfl⟩ := hsuf
  unfold pyTail
  rw [List.length_append]
  have : t.length + logs.length - n = t.length + (logs.length - n) := by omega
  rw [this, List.drop_append]

theorem pyTail_length_le (n : Nat) (l : List α) : (pyTail n l).length ≤ n := by
  unfold pyTail
  rw [List.length_drop]
  omega

/-! ### Trace-shape lemmas -/

/-- The instance phase only appends events to the trace, and none of the
events it appends is a base-image event. -/
theorem instancePhase_trace (env : Env) (a : Args) (s : St) :
    ∃ t, (instancePhase env a s).2.trace = s.trace ++ t ∧
      (∀ n, Event.checkBase n ∉ t) ∧ (∀ l, Event.buildBase l ∉ t) := by
  cases hc : env.checkImageLocal (instanceImageId a.language a.instance_id) with
  | error e =>
    refine ⟨[.checkInstance (instanceImageId a.language a.instance_id)], ?_, ?_, ?_⟩
    · simp [instancePhase, hc, addEvent]
    · simp
    · simp
  | ok found =>
    cases found with
    | true =>
      refine ⟨[.checkInstance (instanceImageId a.language a.instance_id)], ?_, ?_, ?_⟩
      · simp [instancePhase, hc, addEvent, addPrint]
      · simp
      · simp
    | false =>
      cases hcl : env.cloneRepo with
      | error e =>
        refine ⟨[.checkInstance (instanceImageId a.language a.instance_id),
          .clone a.repo], ?_, ?_, ?_⟩
        · simp [instancePhase, hc, hcl, addEvent, addPrint, List.append_assoc]
        · simp
        · simp
      | ok u =>
        cases hco : env.checkoutCommit a.base_commit with
        | error e =>
          refine ⟨[.checkInstance (instanceImageId a.language a.instance_id),
            .clone a.repo, .checkout a.base_commit], ?_, ?_, ?_⟩
          · simp [instancePhase, hc, hcl, hco, addEvent, addPrint, List.append_assoc]
          · simp
          · simp
        | ok u2 =>
          cases hdb : env.dockerBuild with
          | error e =>
            refine ⟨[.checkInstance (instanceImageId a.language a.instance_id),
              .clone a.repo, .checkout a.base_commit,
              .buildInstance (instanceImageId a.language a.instance_id)], ?_, ?_, ?_⟩
            · simp [instancePhase, hc, hcl, hco, hdb, addEvent, addPrint, List.append_assoc]
            · simp
            · simp
          | ok r =>
            refine ⟨[.checkInstance (instanceImageId a.language a.instance_id),
              .clone a.repo, .checkout a.base_commit,
              .buildInstance (instanceImageId a.language a.instance_id)], ?_, ?_, ?_⟩
            · by_cases hr : r ≠ 0 <;>
                by_cases hbl : env.buildLogs ≠ [] <;>
                simp [instancePhase, hc, hcl, hco, hdb, hr, hbl, addEvent, addPrint,
                  repoDel, List.append_assoc]
            · simp
            · simp

/-- The base phase only appends base-image events to the trace and
leaves the workspace-related state untouched. -/
theorem basePhase_state (env : Env) (lang : String) (s : St) :
    ∃ t, (basePhase env lang s).2.trace = s.trace ++ t ∧
      (∀ e ∈ t, (∃ n, e = Event.checkBase n) ∨ ∃ l, e = Event.buildBase l) ∧
      (basePhase env lang s).2.workspaceExists = s.workspaceExists ∧
      (basePhase env lang s).2.repoManagerLive = s.repoManagerLive ∧
      (basePhase env lang s).2.excerptShown = s.excerptShown := by
  by_cases hl : lang ≠ "Python"
  · cases hc : env.checkImageLocal (baseImageId lang) with
    | error e =>
      refine ⟨[.checkBase (baseImageId lang)], ?_, ?_, ?_, ?_, ?_⟩ <;>
        simp [basePhase, hl, hc, addEvent]
    | ok found =>
      cases found with
      | true =>
        refine ⟨[.checkBase (baseImageId lang)], ?_, ?_, ?_, ?_, ?_⟩ <;>
          simp [basePhase, hl, hc, addEvent, addPrint]
      | false =>
        cases hb : env.buildBaseImage lang with
        | error e =>
          refine ⟨[.checkBase (baseImageId lang), .buildBase lang], ?_, ?_, ?_, ?_, ?_⟩ <;>
            simp [basePhase, hl, hc, hb, addEvent, addPrint, List.append_assoc]
        | ok u =>
          refine ⟨[.checkBase (baseImageId lang), .buildBase lang], ?_, ?_, ?_, ?_, ?_⟩ <;>
            simp [basePhase, hl, hc, hb, addEvent, addPrint, List.append_assoc]
  · refine ⟨[], ?_, ?_, ?_, ?_, ?_⟩ <;> simp [basePhase, hl]

theorem instancePhase_clone_live (env : Env) (a : Args) (s : St) :
    Event.clone a.repo ∈ (instancePhase env a s).2.trace →
      Event.clone a.repo ∈ s.trace ∨ (instancePhase env a s).2.repoManagerLive = true := by
  cases hc : env.checkImageLocal (instanceImageId a.language a.instance_id) with
  | error e =>
    intro h
    left
    simpa [instancePhase, hc, addEvent] using h
  | ok found =>
    cases found with
    | true =>
      intro h
      left
      simpa [instancePhase, hc, addEvent, addPrint] using h
    | false =>
      intro _
      right
      cases hcl : env.cloneRepo with
      | error e => simp [instancePhase, hc, hcl, addEvent, addPrint]
      | ok u =>
        cases hco : env.checkoutCommit a.base_commit with
        | error e => simp [instancePhase, hc, hcl, hco, addEvent, addPrint]
        | ok u2 =>
          cases hdb : env.dockerBuild with
          | error e => simp [instancePhase, hc, hcl, hco, hdb, addEvent, addPrint]
          | ok r =>
            by_cases hr : r ≠ 0 <;> by_cases hbl : env.buildLogs ≠ [] <;>
              simp [instancePhase, hc, hcl, hco, hdb, hr, hbl, addEvent, addPrint, repoDel]

theorem instancePhase_status (env : Env) (a : Args) (s : St) :
    ∀ v s', instancePhase env a s = (.ok v, s') → v = 0 ∨ v = 1 := by
  intro v s' h
  cases hc : env.checkImageLocal (instanceImageId a.language a.instance_id) with
  | error e => simp [instancePhase, hc] at h
  | ok found =>
    cases found with
    | true =>
      left
      simp [instancePhase, hc] at h
      exact h.1.symm
    | false =>
      cases hcl : env.cloneRepo with
      | error e => simp [instancePhase, hc, hcl] at h
      | ok u =>
        cases hco : env.checkoutCommit a.base_commit with
        | error e => simp [instancePhase, hc, hcl, hco] at h
        | ok u2 =>
          cases hdb : env.dockerBuild with
          | error e => simp [instancePhase, hc, hcl, hco, hdb] at h
          | ok r =>
            by_cases hr : r ≠ 0
            · right
              simp [instancePhase, hc, hcl, hco, hdb, hr] at h
              exact h.1.symm
            · left
              simp [instancePhase, hc, hcl, hco, hdb, hr] at h
              exact h.1.symm

/-! ### Frame-teardown lemmas and claim C2 -/

@[simp] theorem finalizeFrame_trace (s : St) : (finalizeFrame s).trace = s.trace := by
  unfold finalizeFrame repoDel
  split <;> rfl

@[simp] theorem finalizeFrame_printed (s : St) : (finalizeFrame s).printed = s.printed := by
  unfold finalizeFrame repoDel
  split <;> rfl

@[simp] theorem finalizeFrame_excerptShown (s : St) :
    (finalizeFrame s).excerptShown = s.excerptShown := by
  unfold finalizeFrame repoDel
  split <;> rfl

theorem finalizeFrame_workspace_of_live (s : St) (h : s.repoManagerLive = true) :
    (finalizeFrame s).workspaceExists = false := by
  simp [finalizeFrame, repoDel, h]

theorem finalizeFrame_workspace_of_gone (s : St) (h : s.workspaceExists = false) :
    (finalizeFrame s).workspaceExists = false := by
  unfold finalizeFrame repoDel
  split <;> simp [h]

/-- C2: for every run that reaches the clone step (a clone event is in
the trace), the ephemeral repository workspace no longer exists once the
run has returned, on every exit path: build success, non-zero build
result, checkout failure, and any exception raised by the build step. -/
theorem c2_workspace_released (env : Env) (a : Args)
    (h : Event.clone a.repo ∈ (pyMain env a).2.trace) :
    (pyMain env a).2.workspaceExists = false := by
  cases hfe : env.fromEnv with
  | error e =>
    exfalso
    rw [pyMain] at h
    simp [tryBody, hfe, addPrint] at h
  | ok u =>
    obtain ⟨t, ht, hbase, hw, hl, _⟩ := basePhase_state env a.language {}
    cases hbp : basePhase env a.language {} with
    | mk r1 s1 =>
      rw [hbp] at ht hw hl
      simp only at ht hw hl
      cases r1 with
      | error e =>
        exfalso
        rw [pyMain] at h
        simp only [tryBody, hfe, hbp] at h
        simp [addPrint] at h
        rw [ht] at h
        simp at h
        rcases hbase _ h with ⟨n, hn⟩ | ⟨l2, hl2⟩
        · simp at hn
        · simp at hl2
      | ok u2 =>
        cases hip : instancePhase env a s1 with
        | mk r2 s2 =>
          have hmem : Event.clone a.repo ∈ (instancePhase env a s1).2.trace := by
            rw [pyMain] at h
            simp only [tryBody, hfe, hbp] at h
            cases r2 with
            | ok v => rw [hip] at h ⊢; simpa using h
            | error e => rw [hip] at h ⊢; simpa [addPrint] using h
          rcases instancePhase_clone_live env a s1 hmem with hin | hlive
          · exfalso
            rw [ht] at hin
            simp at hin
            rcases hbase _ hin with ⟨n, hn⟩ | ⟨l2, hl2⟩
            · simp at hn
            · simp at hl2
          · rw [hip] at hlive
            simp only at hlive
            rw [pyMain]
            simp only [tryBody, hfe, hbp, hip]
            cases r2 with
            | ok v =>
              exact finalizeFrame_workspace_of_live s2 hlive
            | error e =>
              apply finalizeFrame_workspace_of_live
              simpa [addPrint] using hlive

/-- A fully successful collaborator environment with both images absent. -/
def envAllOk : Env where
  fromEnv := .ok ()
  checkImageLocal := fun _ => .ok false
  buildBaseImage := fun _ => .ok ()
  cloneRepo := .ok ()
  checkoutCommit := fun _ => .ok ()
  dockerBuild := .ok 0
  buildLogs := []

/-- A concrete Java instance descriptor. -/
def argsJava : Args where
  instance_id := "X1"
  language := "Java"
  repo := "org/x"
  base_commit := "abcdef0123"
  dockerfile := "FROM x"
  repo_path := "/tmp"

/-- Witness for C2: a successful Java run clones, and afterwards the
workspace is gone. -/
theorem c2_workspace_released_witness :
    Event.clone "org/x" ∈ (pyMain envAllOk argsJava).2.trace ∧
      (pyMain envAllOk argsJava).2.workspaceExists = false :=
  ⟨by decide, c2_workspace_released envAllOk argsJava (by decide)⟩

/-! ### Claims C3, C8, C9, C10 -/

/-- C3: for a language that requires a base image, when the base image is
absent and the base build fails (raises), the run returns 1 and no
repository clone, no instance-image registry check and no instance build
is ever attempted. -/
theorem c3_base_build_failure_fatal (env : Env) (a : Args) (e : PyExc)
    (hl : a.language ≠ "Python")
    (hc : env.checkImageLocal (baseImageId a.language) = .ok false)
    (hb : env.buildBaseImage a.language = .error e) :
    (pyMain env a).1 = 1 ∧
      (∀ r, Event.clone r ∉ (pyMain env a).2.trace) ∧
      (∀ n, Event.checkInstance n ∉ (pyMain env a).2.trace) ∧
      (∀ n, Event.buildInstance n ∉ (pyMain env a).2.trace) := by
  cases hfe : env.fromEnv with
  | error e2 =>
    simp [pyMain, tryBody, hfe, addPrint, finalizeFrame, repoDel]
  | ok u =>
    simp [pyMain, tryBody, basePhase, hfe, hl, hc, hb, addEvent, addPrint,
      finalizeFrame, repoDel]

/-- The body of the `try` block can only return the literal statuses 0 and 1. -/
theorem tryBody_status (env : Env) (a : Args) (s : St) :
    ∀ v s', tryBody env a s = (.ok v, s') → v = 0 ∨ v = 1 := by
  intro v s' h
  cases hfe : env.fromEnv with
  | error e =>
    simp [tryBody, hfe] at h
  | ok u =>
    simp only [tryBody, hfe] at h
    cases hbp : basePhase env a.language s with
    | mk r1 s1 =>
      rw [hbp] at h
      cases r1 with
      | error e => simp at h
      | ok u2 => exact instancePhase_status env a s1 v s' h

/-- C8: the orchestrator's return value is always 0 or 1, and every
exception raised inside the `try` block is caught at the top level,
converted to status 1, with `Error building image for <id>: <msg>`
printed; no collaborator error escapes `main`. -/
theorem c8_top_level_catch (env : Env) (a : Args) :
    ((pyMain env a).1 = 0 ∨ (pyMain env a).1 = 1) ∧
      ∀ e, (tryBody env a {}).1 = .error e →
        (pyMain env a).1 = 1 ∧
          ("Error building image for " ++ a.instance_id ++ ": " ++ e.msg) ∈
            (pyMain env a).2.printed := by
  cases ht : tryBody env a {} with
  | mk r s1 =>
    cases r with
    | ok v =>
      constructor
      · have := tryBody_status env a {} v s1 ht
        simpa [pyMain, ht] using this
      · intro e he
        simp at he
    | error e2 =>
      constructor
      · right
        simp [pyMain, ht]
      · intro e he
        simp at he
        subst he
        refine ⟨by simp [pyMain, ht], ?_⟩
        simp [pyMain, ht, addPrint]

/-- For a non-`"Python"` language the base phase's first trace event is
the base-image registry check. -/
theorem basePhase_trace_head (env : Env) (lang : String) (s : St) (h : lang ≠ "Python") :
    ∃ t, (basePhase env lang s).2.trace =
      s.trace ++ Event.checkBase (baseImageId lang) :: t := by
  cases hc : env.checkImageLocal (baseImageId lang) with
  | error e => exact ⟨[], by simp [basePhase, h, hc, addEvent]⟩
  | ok found =>
    cases found with
    | true => exact ⟨[], by simp [basePhase, h, hc, addEvent, addPrint]⟩
    | false =>
      cases hb : env.buildBaseImage lang with
      | error e =>
        exact ⟨[.buildBase lang],
          by simp [basePhase, h, hc, hb, addEvent, addPrint, List.append_assoc]⟩
      | ok u =>
        exact ⟨[.buildBase lang],
          by simp [basePhase, h, hc, hb, addEvent, addPrint, List.append_assoc]⟩

/-- C9: a failing (raising) registry existence query is never treated as
"image absent": after a base-name query error no base build, clone or
instance build happens and the run fails with 1; after an instance-name
query error no clone or instance build happens and the run fails
with 1. -/
theorem c9_registry_query_error_propagates (env : Env) (a : Args) :
    (∀ e, a.language ≠ "Python" →
      env.checkImageLocal (baseImageId a.language) = .error e →
      (pyMain env a).1 = 1 ∧
        (∀ l, Event.buildBase l ∉ (pyMain env a).2.trace) ∧
        (∀ r, Event.clone r ∉ (pyMain env a).2.trace) ∧
        (∀ n, Event.buildInstance n ∉ (pyMain env a).2.trace)) ∧
    (∀ e, env.fromEnv = .ok () →
      (basePhase env a.language {}).1 = .ok () →
      env.checkImageLocal (instanceImageId a.language a.instance_id) = .error e →
      (pyMain env a).1 = 1 ∧
        (∀ r, Event.clone r ∉ (pyMain env a).2.trace) ∧
        (∀ n, Event.buildInstance n ∉ (pyMain env a).2.trace)) := by
  constructor
  · intro e hl hc
    cases hfe : env.fromEnv with
    | error e2 =>
      simp [pyMain, tryBody, hfe, addPrint, finalizeFrame, repoDel]
    | ok u =>
      simp [pyMain, tryBody, basePhase, hfe, hl, hc, addEvent, addPrint,
        finalizeFrame, repoDel]
  · intro e hfe hbp1 hc
    obtain ⟨t, ht, hbase, _, _, _⟩ := basePhase_state env a.language {}
    cases hbp : basePhase env a.language {} with
    | mk r1 s1 =>
      rw [hbp] at ht hbp1
      simp only at ht hbp1
      cases r1 with
      | error e2 => simp at hbp1
      | ok u2 =>
        have hmain : pyMain env a =
            (1, finalizeFrame (addPrint (addEvent s1
              (.checkInstance (instanceImageId a.language a.instance_id)))
              ("Error building image for " ++ a.instance_id ++ ": " ++ e.msg))) := by
          simp [pyMain, tryBody, hfe, hbp, instancePhase, hc]
        rw [hmain]
        simp [addPrint, addEvent]
        rw [ht]
        simp
        constructor
        · intro r hr
          rcases hbase _ hr with ⟨n, hn⟩ | ⟨l2, hl2⟩
          · simp at hn
          · simp at hl2
        · intro n hn
          rcases hbase _ hn with ⟨n2, hn2⟩ | ⟨l2, hl2⟩
          · simp at hn2
          · simp at hl2

/-- C10: the self-contained-language test at line 65 compares
case-sensitively against `"Python"`: for the lower-case input
`"python"` the base check-and-build branch IS taken (the first trace
event is the base-image check), while the derived image names coincide
with those of `"Python"`. -/
theorem c10_language_check_case_sensitive (env : Env) (a : Args)
    (hl : a.language = "python") (hfe : env.fromEnv = .ok ()) :
    (pyMain env a).2.trace.head? = some (Event.checkBase "polybench_python_base") ∧
      baseImageId "python" = baseImageId "Python" ∧
      ∀ i, instanceImageId "python" i = instanceImageId "Python" i := by
  refine ⟨?_, by decide, ?_⟩
  · have hne : a.language ≠ "Python" := by rw [hl]; decide
    obtain ⟨t, ht⟩ := basePhase_trace_head env a.language {} hne
    have hbid : baseImageId a.language = "polybench_python_base" := by
      rw [hl]; decide
    rw [hbid] at ht
    cases hbp : basePhase env a.language {} with
    | mk r1 s1 =>
      rw [hbp] at ht
      simp only at ht
      cases r1 with
      | error e =>
        simp [pyMain, tryBody, hfe, hbp, addPrint, ht]
      | ok u =>
        obtain ⟨t2, ht2, _, _⟩ := instancePhase_trace env a s1
        cases hip : instancePhase env a s1 with
        | mk r2 s2 =>
          rw [hip] at ht2
          simp only at ht2
          cases r2 with
          | ok v =>
            simp [pyMain, tryBody, hfe, hbp, hip, ht2, ht]
          | error e =>
            simp [pyMain, tryBody, hfe, hbp, hip, addPrint, ht2, ht]
  · intro i
    rw [instanceImageId, instanceImageId,
      show pyLower "python" = pyLower "Python" from by decide]

/-- Base-image build raises. -/
def envBaseBuildFails : Env :=
  { envAllOk with buildBaseImage := fun _ => .error ⟨"base build failed"⟩ }

/-- Engine client construction raises. -/
def envClientFails : Env :=
  { envAllOk with fromEnv := .error ⟨"cannot connect to Docker daemon"⟩ }

/-- Every registry existence query raises. -/
def envQueryFails : Env :=
  { envAllOk with checkImageLocal := fun _ => .error ⟨"registry query failed"⟩ }

/-- The Java descriptor with the language spelled lower-case. -/
def argsPythonLower : Args :=
  { argsJava with language := "python" }

/-- Witness for C3: Java run, base absent, base build raises. -/
theorem c3_base_build_failure_fatal_witness :
    argsJava.language ≠ "Python" ∧
      envBaseBuildFails.checkImageLocal (baseImageId argsJava.language) =
        .ok false ∧
      envBaseBuildFails.buildBaseImage argsJava.language =
        .error ⟨"base build failed"⟩ ∧
      ((pyMain envBaseBuildFails argsJava).1 = 1 ∧
        (∀ r, Event.clone r ∉ (pyMain envBaseBuildFails argsJava).2.trace) ∧
        (∀ n, Event.checkInstance n ∉ (pyMain envBaseBuildFails argsJava).2.trace) ∧
        (∀ n, Event.buildInstance n ∉ (pyMain envBaseBuildFails argsJava).2.trace)) :=
  ⟨by decide, rfl, rfl,
    c3_base_build_failure_fatal envBaseBuildFails argsJava ⟨"base build failed"⟩
      (by decide) rfl rfl⟩

/-- Witness for C8: the engine-client constructor raises and the error is
caught, printed and mapped to 1. -/
theorem c8_top_level_catch_witness :
    (tryBody envClientFails argsJava {}).1 =
        Except.error ⟨"cannot connect to Docker daemon"⟩ ∧
      ((pyMain envClientFails argsJava).1 = 1 ∧
        ("Error building image for " ++ argsJava.instance_id ++ ": " ++
            PyExc.msg ⟨"cannot connect to Docker daemon"⟩) ∈
          (pyMain envClientFails argsJava).2.printed) :=
  ⟨rfl, (c8_top_level_catch envClientFails argsJava).2
    ⟨"cannot connect to Docker daemon"⟩ rfl⟩

/-- Witness for C9: the base-name registry query raises on a Java run. -/
theorem c9_registry_query_error_propagates_witness :
    argsJava.language ≠ "Python" ∧
      envQueryFails.checkImageLocal (baseImageId argsJava.language) =
        .error ⟨"registry query failed"⟩ ∧
      ((pyMain envQueryFails argsJava).1 = 1 ∧
        (∀ l, Event.buildBase l ∉ (pyMain envQueryFails argsJava).2.trace) ∧
        (∀ r, Event.clone r ∉ (pyMain envQueryFails argsJava).2.trace) ∧
        (∀ n, Event.buildInstance n ∉ (pyMain envQueryFails argsJava).2.trace)) :=
  ⟨by decide, rfl,
    (c9_registry_query_error_propagates envQueryFails argsJava).1
      ⟨"registry query failed"⟩ (by decide) rfl⟩

/-- Witness for C10: a run with language `"python"`. -/
theorem c10_language_check_case_sensitive_witness :
    argsPythonLower.language = "python" ∧ envAllOk.fromEnv = .ok () ∧
      ((pyMain envAllOk argsPythonLower).2.trace.head? =
          some (Event.checkBase "polybench_python_base") ∧
        baseImageId "python" = baseImageId "Python" ∧
        ∀ i, instanceImageId "python" i = instanceImageId "Python" i) :=
  ⟨rfl, rfl, c10_language_check_case_sensitive envAllOk argsPythonLower rfl rfl⟩

/-! ### Claims C1, C4, C5, C7 -/

/-- C1: the run's return value is NOT delivered as the process exit
status.  At a failing input (Java descriptor, base image absent, base
build raises) `main` returns 1, yet the `__main__` guard discards the
value and the process exits 0 — refuting the claim; the code slip is the
missing `sys.exit(main())` (line 7 imports `sys` and never uses it). -/
theorem c1_exit_status_never_delivered :
    (pyMain envBaseBuildFails argsJava).1 = 1 ∧
      processExitStatus envBaseBuildFails argsJava = 0 :=
  ⟨by decide, rfl⟩

/-- Registry reports the instance image present but the base image
absent; the base build raises. -/
def envInstPresentBaseFails : Env :=
  { envAllOk with
    checkImageLocal := fun n => if n = "polybench_java_base" then .ok false else .ok true,
    buildBaseImage := fun _ => .error ⟨"base build failed"⟩ }

/-- Counterexample to C4 as stated: a descriptor whose instance image
name exists in the registry, yet the run attempts (and fails) a base
build and returns 1 instead of 0. -/
theorem c4_short_circuit_cex :
    envInstPresentBaseFails.checkImageLocal
        (instanceImageId argsJava.language argsJava.instance_id) = .ok true ∧
      (pyMain envInstPresentBaseFails argsJava).1 = 1 ∧
      Event.buildBase "Java" ∈ (pyMain envInstPresentBaseFails argsJava).2.trace :=
  ⟨rfl, by decide, by decide⟩

/-- C4 (amended): provided the engine client constructs and the base
phase passes without a build (base image present, or language
`"Python"` — as holds on any second run after a successful first run), a
descriptor whose instance image name already exists yields status 0
with no clone and no build of any kind. -/
theorem c4_instance_exists_short_circuit (env : Env) (a : Args)
    (hfe : env.fromEnv = .ok ())
    (hbase : a.language = "Python" ∨
      env.checkImageLocal (baseImageId a.language) = .ok true)
    (hc : env.checkImageLocal (instanceImageId a.language a.instance_id) = .ok true) :
    (pyMain env a).1 = 0 ∧
      (∀ r, Event.clone r ∉ (pyMain env a).2.trace) ∧
      (∀ l, Event.buildBase l ∉ (pyMain env a).2.trace) ∧
      (∀ n, Event.buildInstance n ∉ (pyMain env a).2.trace) := by
  rcases hbase with hpy | hok
  · rw [hpy] at hc
    simp [pyMain, tryBody, hfe, basePhase, hpy, instancePhase, hc, addEvent,
      addPrint, finalizeFrame, repoDel]
  · by_cases hpy : a.language = "Python"
    · rw [hpy] at hc
      simp [pyMain, tryBody, hfe, basePhase, hpy, instancePhase, hc, addEvent,
        addPrint, finalizeFrame, repoDel]
    · simp [pyMain, tryBody, hfe, basePhase, hpy, hok, instancePhase, hc, addEvent,
        addPrint, finalizeFrame, repoDel]

/-- When the build step reports a non-zero code, the instance phase
returns status 1 and surfaces the last 10 retained log lines. -/
theorem instancePhase_fail_excerpt (env : Env) (a : Args) (s : St) (r : Int)
    (hc : env.checkImageLocal (instanceImageId a.language a.instance_id) = .ok false)
    (hcl : env.cloneRepo = .ok ())
    (hco : env.checkoutCommit a.base_commit = .ok ())
    (hdb : env.dockerBuild = .ok r) (hr : r ≠ 0)
    (hs : s.excerptShown = []) :
    (instancePhase env a s).1 = .ok 1 ∧
      (instancePhase env a s).2.excerptShown = pyTail 10 env.buildLogs := by
  by_cases hbl : env.buildLogs = []
  · constructor <;>
      simp [instancePhase, hc, hcl, hco, hdb, hr, hbl, addEvent, addPrint,
        repoDel, pyTail, hs]
  · constructor <;>
      simp [instancePhase, hc, hcl, hco, hdb, hr, hbl, addEvent, addPrint, repoDel]

/-- C5: when the instance build fails, the surfaced log excerpt never
exceeds 10 lines, and if the build produced more than 10 lines the
excerpt is exactly the final 10, in order.  Modelled from the spec:
`build_logs` retains a suffix of the produced lines holding at least
the last `min 10 produced.length` of them. -/
theorem c5_log_excerpt_bounded_last_ten (env : Env) (a : Args) (r : Int) (produced : List String)
    (hfe : env.fromEnv = .ok ())
    (hbp : (basePhase env a.language {}).1 = .ok ())
    (hc : env.checkImageLocal (instanceImageId a.language a.instance_id) = .ok false)
    (hcl : env.cloneRepo = .ok ())
    (hco : env.checkoutCommit a.base_commit = .ok ())
    (hdb : env.dockerBuild = .ok r) (hr : r ≠ 0)
    (hsuf : env.buildLogs <:+ produced)
    (hkeep : min 10 produced.length ≤ env.buildLogs.length) :
    (pyMain env a).1 = 1 ∧
      (pyMain env a).2.excerptShown.length ≤ 10 ∧
      (10 < produced.length →
        (pyMain env a).2.excerptShown = pyTail 10 produced) := by
  obtain ⟨t, ht, hbase, hw, hlv, hex⟩ := basePhase_state env a.language {}
  cases hbp2 : basePhase env a.language {} with
  | mk r1 s1 =>
    rw [hbp2] at hbp hex
    simp only at hbp hex
    cases r1 with
    | error e => simp at hbp
    | ok u =>
      have hkey := instancePhase_fail_excerpt env a s1 r hc hcl hco hdb hr (by rw [hex])
      cases hip : instancePhase env a s1 with
      | mk r2 s2 =>
        rw [hip] at hkey
        simp only at hkey
        obtain ⟨hst, hex2⟩ := hkey
        subst hst
        have hm : pyMain env a = (1, finalizeFrame s2) := by
          simp [pyMain, tryBody, hfe, hbp2, hip]
        refine ⟨by simp [hm], ?_, ?_⟩
        · rw [hm]
          simp only [finalizeFrame_excerptShown]
          rw [hex2]
          exact pyTail_length_le 10 _
        · intro hp
          rw [hm]
          simp only [finalizeFrame_excerptShown]
          rw [hex2]
          apply pyTail_suffix 10 _ _ hsuf
          omega

/-- Strengthened head lemma for the base phase: the trace starts with
the base check, everything after it (inside the phase) is a base build,
and when the registry reported the base image absent the base build is
among those events. -/
theorem basePhase_trace_front (env : Env) (lang : String) (s : St) (h : lang ≠ "Python") :
    ∃ t, (basePhase env lang s).2.trace =
        s.trace ++ Event.checkBase (baseImageId lang) :: t ∧
      (∀ e ∈ t, ∃ l, e = Event.buildBase l) ∧
      (env.checkImageLocal (baseImageId lang) = .ok false →
        Event.buildBase lang ∈ t) := by
  cases hc : env.checkImageLocal (baseImageId lang) with
  | error e =>
    refine ⟨[], by simp [basePhase, h, hc, addEvent], by simp, ?_⟩
    intro hcf
    simp at hcf
  | ok found =>
    cases found with
    | true =>
      refine ⟨[], by simp [basePhase, h, hc, addEvent, addPrint], by simp, ?_⟩
      intro hcf
      simp at hcf
    | false =>
      cases hb : env.buildBaseImage lang with
      | error e =>
        refine ⟨[.buildBase lang],
          by simp [basePhase, h, hc, hb, addEvent, addPrint, List.append_assoc],
          by simp, by simp⟩
      | ok u =>
        refine ⟨[.buildBase lang],
          by simp [basePhase, h, hc, hb, addEvent, addPrint, List.append_assoc],
          by simp, by simp⟩

/-- C7: for a language requiring a base image (any language other than
`"Python"`), in every run the base-existence check — and, when the base
was reported absent, the base build — precedes any repository clone;
for `"Python"` no base check and no base build ever occurs. -/
theorem c7_base_phase_before_clone (env : Env) (a : Args) :
    (a.language ≠ "Python" →
      ∀ pre post r, (pyMain env a).2.trace = pre ++ Event.clone r :: post →
        Event.checkBase (baseImageId a.language) ∈ pre ∧
        (env.checkImageLocal (baseImageId a.language) = .ok false →
          Event.buildBase a.language ∈ pre)) ∧
    (a.language = "Python" →
      (∀ n, Event.checkBase n ∉ (pyMain env a).2.trace) ∧
      (∀ l, Event.buildBase l ∉ (pyMain env a).2.trace)) := by
  constructor
  · intro hne pre post r hd
    cases hfe : env.fromEnv with
    | error e =>
      rw [pyMain] at hd
      simp [tryBody, hfe, addPrint] at hd
    | ok u =>
      obtain ⟨t, ht, htb, htc⟩ := basePhase_trace_front env a.language {} hne
      have hclt : Event.clone r ∉ Event.checkBase (baseImageId a.language) :: t := by
        intro hmem
        rcases List.mem_cons.mp hmem with hh | hh
        · simp at hh
        · obtain ⟨l, hl⟩ := htb _ hh
          simp at hl
      cases hbp : basePhase env a.language {} with
      | mk r1 s1 =>
        rw [hbp] at ht
        simp only at ht
        simp only [List.nil_append] at ht
        cases r1 with
        | error e =>
          have htr : (pyMain env a).2.trace =
              Event.checkBase (baseImageId a.language) :: t := by
            simp [pyMain, tryBody, hfe, hbp, addPrint, ht]
          rw [htr] at hd
          have happ : (Event.checkBase (baseImageId a.language) :: t) ++ [] =
              pre ++ Event.clone r :: post := by
            rw [List.append_nil]
            exact hd
          have hall := mem_pre_of_block _ _ _ _ _ happ hclt
          exact ⟨hall _ (List.mem_cons_self _ _), fun hcf =>
            hall _ (List.mem_cons_of_mem _ (htc hcf))⟩
        | ok u2 =>
          obtain ⟨t2, ht2, _, _⟩ := instancePhase_trace env a s1
          cases hip : instancePhase env a s1 with
          | mk r2 s2 =>
            rw [hip] at ht2
            simp only at ht2
            have htr : (pyMain env a).2.trace = s2.trace := by
              cases r2 with
              | ok v => simp [pyMain, tryBody, hfe, hbp, hip]
              | error e => simp [pyMain, tryBody, hfe, hbp, hip, addPrint]
            rw [htr, ht2, ht] at hd
            have hall := mem_pre_of_block _ _ _ _ _ hd hclt
            exact ⟨hall _ (List.mem_cons_self _ _), fun hcf =>
              hall _ (List.mem_cons_of_mem _ (htc hcf))⟩
  · intro hpy
    cases hfe : env.fromEnv with
    | error e =>
      constructor <;> intro x <;>
        simp [pyMain, tryBody, hfe, addPrint]
    | ok u =>
      have hbp : basePhase env a.language {} = (.ok (), ({} : St)) := by
        simp [basePhase, hpy]
      obtain ⟨t2, ht2, hnb, hnb2⟩ := instancePhase_trace env a ({} : St)
      cases hip : instancePhase env a ({} : St) with
      | mk r2 s2 =>
        rw [hip] at ht2
        simp only at ht2
        simp only [List.nil_append] at ht2
        have htr : (pyMain env a).2.trace = s2.trace := by
          cases r2 with
          | ok v => simp [pyMain, tryBody, hfe, hbp, hip]
          | error e => simp [pyMain, tryBody, hfe, hbp, hip, addPrint]
        rw [htr, ht2]
        exact ⟨hnb, hnb2⟩

/-- Registry reports every image as already present. -/
def envSecondRun : Env :=
  { envAllOk with checkImageLocal := fun _ => .ok true }

/-- The Java descriptor with language `"Python"`. -/
def argsPython : Args :=
  { argsJava with language := "Python" }

/-- Build fails with code 1 after producing 12 log lines, of which the
last 10 are retained. -/
def envBuildFails : Env :=
  { envAllOk with
    dockerBuild := .ok 1,
    buildLogs := ["l3", "l4", "l5", "l6", "l7", "l8", "l9", "l10", "l11", "l12"] }

/-- The 12 log lines the failing build produced. -/
def producedLogs : List String :=
  ["l1", "l2", "l3", "l4", "l5", "l6", "l7", "l8", "l9", "l10", "l11", "l12"]

/-- Witness for C4 (amended): second run with both images present. -/
theorem c4_instance_exists_short_circuit_witness :
    envSecondRun.fromEnv = .ok () ∧
      (argsJava.language = "Python" ∨
        envSecondRun.checkImageLocal (baseImageId argsJava.language) = .ok true) ∧
      envSecondRun.checkImageLocal
          (instanceImageId argsJava.language argsJava.instance_id) = .ok true ∧
      ((pyMain envSecondRun argsJava).1 = 0 ∧
        (∀ r, Event.clone r ∉ (pyMain envSecondRun argsJava).2.trace) ∧
        (∀ l, Event.buildBase l ∉ (pyMain envSecondRun argsJava).2.trace) ∧
        (∀ n, Event.buildInstance n ∉ (pyMain envSecondRun argsJava).2.trace)) :=
  ⟨rfl, Or.inr rfl, rfl,
    c4_instance_exists_short_circuit envSecondRun argsJava rfl (Or.inr rfl) rfl⟩

/-- Witness for C5: 12 produced lines, a failing build, excerpt is
exactly the last 10. -/
theorem c5_log_excerpt_bounded_last_ten_witness :
    envBuildFails.fromEnv = .ok () ∧
      (basePhase envBuildFails argsJava.language {}).1 = .ok () ∧
      envBuildFails.checkImageLocal
          (instanceImageId argsJava.language argsJava.instance_id) = .ok false ∧
      envBuildFails.cloneRepo = .ok () ∧
      envBuildFails.checkoutCommit argsJava.base_commit = .ok () ∧
      envBuildFails.dockerBuild = .ok 1 ∧ (1 : Int) ≠ 0 ∧
      envBuildFails.buildLogs <:+ producedLogs ∧
      min 10 producedLogs.length ≤ envBuildFails.buildLogs.length ∧
      ((pyMain envBuildFails argsJava).1 = 1 ∧
        (pyMain envBuildFails argsJava).2.excerptShown.length ≤ 10 ∧
        (10 < producedLogs.length →
          (pyMain envBuildFails argsJava).2.excerptShown = pyTail 10 producedLogs)) :=
  ⟨rfl, rfl, rfl, rfl, rfl, rfl, by decide, ⟨["l1", "l2"], rfl⟩, by decide,
    c5_log_excerpt_bounded_last_ten envBuildFails argsJava 1 producedLogs
      rfl rfl rfl rfl rfl rfl (by decide) ⟨["l1", "l2"], rfl⟩ (by decide)⟩

/-- Witness for C7: a successful Java run decomposed around its clone
event, and a Python run with no base events. -/
theorem c7_base_phase_before_clone_witness :
    argsJava.language ≠ "Python" ∧
      (pyMain envAllOk argsJava).2.trace =
        [Event.checkBase "polybench_java_base", Event.buildBase "Java",
          Event.checkInstance "polybench_java_x1"] ++
          Event.clone "org/x" ::
            [Event.checkout "abcdef0123", Event.buildInstance "polybench_java_x1"] ∧
      (Event.checkBase (baseImageId argsJava.language) ∈
          [Event.checkBase "polybench_java_base", Event.buildBase "Java",
            Event.checkInstance "polybench_java_x1"] ∧
        (envAllOk.checkImageLocal (baseImageId argsJava.language) = .ok false →
          Event.buildBase argsJava.language ∈
            [Event.checkBase "polybench_java_base", Event.buildBase "Java",
              Event.checkInstance "polybench_java_x1"])) ∧
      argsPython.language = "Python" ∧
      ((∀ n, Event.checkBase n ∉ (pyMain envAllOk argsPython).2.trace) ∧
        (∀ l, Event.buildBase l ∉ (pyMain envAllOk argsPython).2.trace)) :=
  ⟨by decide, by decide,
    (c7_base_phase_before_clone envAllOk argsJava).1 (by decide)
      [Event.checkBase "polybench_java_base", Event.buildBase "Java",
        Event.checkInstance "polybench_java_x1"]
      [Event.checkout "abcdef0123", Event.buildInstance "polybench_java_x1"]
      "org/x" (by decide),
    rfl, (c7_base_phase_before_clone envAllOk argsPython).2 rfl⟩

end PolyBench
